import Mathlib

/-!
Shallow embedding of the SEO audit-and-scoring engine of the repository
(function analyzeStoreSEO in the analyzer service file).  The four resource
lists are taken as inputs (the GraphQL fetch stage merely materializes them);
everything from the line computing crawledPages down to the returned record
is translated directly.

JavaScript conventions modelled explicitly:
- a field typed string | null is an Option String; the JS test !x holds
  exactly when the value is null or the empty string;
- a plain string field is falsy exactly when it is empty;
- String.length counts characters (all texts involved are plain ASCII in the
  thresholds discussed, where JS UTF-16 length agrees);
- Math.max / Math.min clamping is max / min on Int;
- Math.round(y) is the floor of y + 1/2, so Math.round(x / 3) for an integer
  x is the floor of (2x + 3) / 6 (Euclidean division on Int).
-/

/-- JS falsiness of a string-or-null field: null or the empty string. -/
def jsFalsy : Option String → Bool
  | none => true
  | some s => s == ""

/-- JS falsiness of a plain string field: the empty string. -/
def jsStrFalsy (s : String) : Bool := s == ""

structure ImageNode where
  url : String
  altText : Option String
deriving Repr, DecidableEq

structure SEOFieldsNode where
  title : Option String
  description : Option String
deriving Repr, DecidableEq

structure ProductNode where
  id : String
  title : String
  handle : String
  descriptionHtml : String
  seo : SEOFieldsNode
  featuredImage : Option ImageNode
  images : List ImageNode
deriving Repr, DecidableEq

structure CollectionNode where
  id : String
  title : String
  handle : String
  descriptionHtml : String
  seo : SEOFieldsNode
  image : Option ImageNode
deriving Repr, DecidableEq

structure PageNode where
  id : String
  title : String
  handle : String
  body : String
deriving Repr, DecidableEq

structure ArticleNode where
  id : String
  title : String
  handle : String
  contentHtml : String
  seo : SEOFieldsNode
  image : Option ImageNode
deriving Repr, DecidableEq

inductive IssueType where
  | critical
  | warning
  | info
  | success
deriving Repr, DecidableEq

inductive IssueCategory where
  | content
  | performance
  | accessibility
  | technical
deriving Repr, DecidableEq

structure SEOIssue where
  id : String
  type : IssueType
  category : IssueCategory
  title : String
  description : String
  affectedPages : Option Nat
  resourceType : Option String
  fixable : Bool
deriving Repr, DecidableEq

structure SEOAnalysisResult where
  overallScore : Int
  contentScore : Int
  performanceScore : Int
  accessibilityScore : Int
  criticalIssues : Nat
  improvements : Nat
  goodResults : Nat
  issues : List SEOIssue
  crawledPages : Nat
deriving Repr, DecidableEq

/-! Rule evaluator: the per-rule violation counters of the products /
collections / pages / articles forEach loops. -/

/-- Counter productsMissingMetaTitle: no SEO title and no fallback title. -/
def productsMissingMetaTitleCount (products : List ProductNode) : Nat :=
  products.countP fun p => jsFalsy p.seo.title && jsStrFalsy p.title

/-- Counter productsMissingMetaDescription: no SEO description. -/
def productsMissingMetaDescriptionCount (products : List ProductNode) : Nat :=
  products.countP fun p => jsFalsy p.seo.description

/-- Counter productsShortDescription: body truthy and shorter than 100 chars. -/
def productsShortDescriptionCount (products : List ProductNode) : Nat :=
  products.countP fun p =>
    !jsStrFalsy p.descriptionHtml && p.descriptionHtml.length < 100

/-- Counter productsMissingAltText, accumulated exactly as the source loop:
the number of gallery images whose altText is falsy is added when positive,
and one more is added when a featured image exists with falsy altText. -/
def productsMissingAltTextCount (products : List ProductNode) : Nat :=
  products.foldl
    (fun acc product =>
      let imagesWithoutAlt :=
        (product.images.filter fun img => jsFalsy img.altText).length
      let acc1 := if imagesWithoutAlt > 0 then acc + imagesWithoutAlt else acc
      match product.featuredImage with
      | some f => if jsFalsy f.altText then acc1 + 1 else acc1
      | none => acc1)
    0

/-- Counter collectionsMissingMetaTitle. -/
def collectionsMissingMetaTitleCount (collections : List CollectionNode) : Nat :=
  collections.countP fun c => jsFalsy c.seo.title

/-- Counter collectionsMissingMetaDescription. -/
def collectionsMissingMetaDescriptionCount (collections : List CollectionNode) : Nat :=
  collections.countP fun c => jsFalsy c.seo.description

/-- Counter collectionsMissingDescription: body falsy or shorter than 50. -/
def collectionsMissingDescriptionCount (collections : List CollectionNode) : Nat :=
  collections.countP fun c =>
    jsStrFalsy c.descriptionHtml || c.descriptionHtml.length < 50

/-- Counter pagesMissingContent: body falsy or shorter than 100. -/
def pagesMissingContentCount (pages : List PageNode) : Nat :=
  pages.countP fun p => jsStrFalsy p.body || p.body.length < 100

/-- Counter articlesMissingMetaTitle. -/
def articlesMissingMetaTitleCount (articles : List ArticleNode) : Nat :=
  articles.countP fun a => jsFalsy a.seo.title

/-- Counter articlesMissingMetaDescription. -/
def articlesMissingMetaDescriptionCount (articles : List ArticleNode) : Nat :=
  articles.countP fun a => jsFalsy a.seo.description

/-- Counter articlesShortContent: content truthy and shorter than 500. -/
def articlesShortContentCount (articles : List ArticleNode) : Nat :=
  articles.countP fun a =>
    !jsStrFalsy a.contentHtml && a.contentHtml.length < 500

/-! Issue synthesizer: the fixed issue records pushed for nonzero counters,
with the exact strings of the source. -/

def issueProductsMetaTitle (n : Nat) : SEOIssue :=
  { id := "products-meta-title"
    type := IssueType.critical
    category := IssueCategory.content
    title := "Products missing meta title"
    description := "Meta titles help search engines understand your product pages and improve click-through rates."
    affectedPages := some n
    resourceType := some "product"
    fixable := true }

def issueProductsMetaDescription (n : Nat) : SEOIssue :=
  { id := "products-meta-description"
    type := IssueType.critical
    category := IssueCategory.content
    title := "Products missing meta description"
    description := "Meta descriptions appear in search results and encourage users to click on your products."
    affectedPages := some n
    resourceType := some "product"
    fixable := true }

def issueProductsAltText (n : Nat) : SEOIssue :=
  { id := "products-alt-text"
    type := IssueType.warning
    category := IssueCategory.accessibility
    title := "Product images missing alt text"
    description := "Alt text improves accessibility and helps search engines understand your images."
    affectedPages := some n
    resourceType := some "product"
    fixable := true }

def issueProductsShortDescription (n : Nat) : SEOIssue :=
  { id := "products-short-description"
    type := IssueType.warning
    category := IssueCategory.content
    title := "Products with short descriptions"
    description := "Longer, detailed product descriptions can improve SEO and conversions."
    affectedPages := some n
    resourceType := some "product"
    fixable := true }

def issueCollectionsMetaTitle (n : Nat) : SEOIssue :=
  { id := "collections-meta-title"
    type := IssueType.critical
    category := IssueCategory.content
    title := "Collections missing meta title"
    description := "Collection meta titles help category pages rank in search results."
    affectedPages := some n
    resourceType := some "collection"
    fixable := true }

def issueCollectionsMetaDescription (n : Nat) : SEOIssue :=
  { id := "collections-meta-description"
    type := IssueType.warning
    category := IssueCategory.content
    title := "Collections missing meta description"
    description := "Meta descriptions for collections improve their visibility in search results."
    affectedPages := some n
    resourceType := some "collection"
    fixable := true }

def issueCollectionsDescription (n : Nat) : SEOIssue :=
  { id := "collections-description"
    type := IssueType.warning
    category := IssueCategory.content
    title := "Collections missing description"
    description := "Collection descriptions provide context for search engines and customers."
    affectedPages := some n
    resourceType := some "collection"
    fixable := true }

def issuePagesContent (n : Nat) : SEOIssue :=
  { id := "pages-content"
    type := IssueType.warning
    category := IssueCategory.content
    title := "Pages with insufficient content"
    description := "Pages need substantial content to rank well in search results."
    affectedPages := some n
    resourceType := some "page"
    fixable := true }

def issueArticlesMetaTitle (n : Nat) : SEOIssue :=
  { id := "articles-meta-title"
    type := IssueType.warning
    category := IssueCategory.content
    title := "Blog posts missing meta title"
    description := "Blog post meta titles help your content rank for target keywords."
    affectedPages := some n
    resourceType := some "article"
    fixable := true }

def issueArticlesMetaDescription (n : Nat) : SEOIssue :=
  { id := "articles-meta-description"
    type := IssueType.warning
    category := IssueCategory.content
    title := "Blog posts missing meta description"
    description := "Meta descriptions encourage clicks from search results."
    affectedPages := some n
    resourceType := some "article"
    fixable := true }

def issueArticlesShortContent (n : Nat) : SEOIssue :=
  { id := "articles-short-content"
    type := IssueType.warning
    category := IssueCategory.content
    title := "Blog posts with short content"
    description := "Longer, comprehensive blog posts tend to rank better in search results."
    affectedPages := some n
    resourceType := some "article"
    fixable := true }

def issueProductsMetaTitleGood : SEOIssue :=
  { id := "products-meta-title-good"
    type := IssueType.success
    category := IssueCategory.content
    title := "All products have meta titles"
    description := "Great! Your products are optimized with meta titles."
    affectedPages := none
    resourceType := none
    fixable := false }

def issueProductsAltTextGood : SEOIssue :=
  { id := "products-alt-text-good"
    type := IssueType.success
    category := IssueCategory.accessibility
    title := "All product images have alt text"
    description := "Excellent! Your product images are accessible and SEO-friendly."
    affectedPages := none
    resourceType := none
    fixable := false }

/-- The non-success issues, pushed in the fixed order of the source: the four
product rules, the three collection rules, the page rule, the three article
rules; each rule contributes its record exactly when its counter is nonzero. -/
def nonSuccessIssues (products : List ProductNode) (collections : List CollectionNode)
    (pages : List PageNode) (articles : List ArticleNode) : List SEOIssue :=
  (if productsMissingMetaTitleCount products > 0 then
    [issueProductsMetaTitle (productsMissingMetaTitleCount products)] else []) ++
  (if productsMissingMetaDescriptionCount products > 0 then
    [issueProductsMetaDescription (productsMissingMetaDescriptionCount products)] else []) ++
  (if productsMissingAltTextCount products > 0 then
    [issueProductsAltText (productsMissingAltTextCount products)] else []) ++
  (if productsShortDescriptionCount products > 0 then
    [issueProductsShortDescription (productsShortDescriptionCount products)] else []) ++
  (if collectionsMissingMetaTitleCount collections > 0 then
    [issueCollectionsMetaTitle (collectionsMissingMetaTitleCount collections)] else []) ++
  (if collectionsMissingMetaDescriptionCount collections > 0 then
    [issueCollectionsMetaDescription (collectionsMissingMetaDescriptionCount collections)] else []) ++
  (if collectionsMissingDescriptionCount collections > 0 then
    [issueCollectionsDescription (collectionsMissingDescriptionCount collections)] else []) ++
  (if pagesMissingContentCount pages > 0 then
    [issuePagesContent (pagesMissingContentCount pages)] else []) ++
  (if articlesMissingMetaTitleCount articles > 0 then
    [issueArticlesMetaTitle (articlesMissingMetaTitleCount articles)] else []) ++
  (if articlesMissingMetaDescriptionCount articles > 0 then
    [issueArticlesMetaDescription (articlesMissingMetaDescriptionCount articles)] else []) ++
  (if articlesShortContentCount articles > 0 then
    [issueArticlesShortContent (articlesShortContentCount articles)] else [])

/-- The success issues, appended after the others: each fires when its counter
is zero and at least one product exists. -/
def goodResultIssues (products : List ProductNode) : List SEOIssue :=
  (if productsMissingMetaTitleCount products = 0 ∧ products.length > 0 then
    [issueProductsMetaTitleGood] else []) ++
  (if productsMissingAltTextCount products = 0 ∧ products.length > 0 then
    [issueProductsAltTextGood] else [])

/-! Score aggregator. -/

/-- The clamp Math.max(0, Math.min(100, x)) applied to every sub-score. -/
def clamp0100 (x : Int) : Int := max 0 (min 100 x)

/-- contentScore as computed from the critical and warning tallies. -/
def contentScoreOf (criticalIssues warnings : Nat) : Int :=
  clamp0100 (100 - (criticalIssues : Int) * 15 - (warnings : Int) * 5)

/-- accessibilityScore as computed from the missing-alt-text counter. -/
def accessibilityScoreOf (productsMissingAltText : Nat) : Int :=
  clamp0100 (if productsMissingAltText > 0 then
    100 - (productsMissingAltText : Int) * 2 else 100)

/-- Math.round(x / 3) for an integer x: the floor of x / 3 + 1 / 2. -/
def mathRoundDiv3 (x : Int) : Int := (2 * x + 3) / 6

/-- The analysis pipeline from the four materialized resource lists to the
returned record, translated line by line from the source. -/
def analyzeStoreSEO (products : List ProductNode) (collections : List CollectionNode)
    (pages : List PageNode) (articles : List ArticleNode) : SEOAnalysisResult :=
  let crawledPages :=
    products.length + collections.length + pages.length + articles.length
  let issues := nonSuccessIssues products collections pages articles
  let goodResults := goodResultIssues products
  let criticalIssues := (issues.filter fun i => i.type = IssueType.critical).length
  let warnings := (issues.filter fun i => i.type = IssueType.warning).length
  let contentScore := contentScoreOf criticalIssues warnings
  let accessibilityScore := accessibilityScoreOf (productsMissingAltTextCount products)
  let performanceScore : Int := 80
  let overallScore := mathRoundDiv3 (contentScore + accessibilityScore + performanceScore)
  { overallScore := overallScore
    contentScore := contentScore
    performanceScore := performanceScore
    accessibilityScore := accessibilityScore
    criticalIssues := criticalIssues
    improvements := warnings
    goodResults := goodResults.length
    issues := issues ++ goodResults
    crawledPages := crawledPages }

/-! Derived record counts, the per-image alt-text reading, the canonical
emission order, and the concrete inputs used by the test-vector claims. -/

/-- Number of distinct critical issue records: one per nonzero critical-rule
counter (the three critical rules), regardless of how many resources violate
each rule. -/
def criticalRecordCount (products : List ProductNode)
    (collections : List CollectionNode) : Nat :=
  (if productsMissingMetaTitleCount products > 0 then 1 else 0) +
  (if productsMissingMetaDescriptionCount products > 0 then 1 else 0) +
  (if collectionsMissingMetaTitleCount collections > 0 then 1 else 0)

/-- Number of distinct warning issue records: one per nonzero warning-rule
counter (the eight warning rules). -/
def warningRecordCount (products : List ProductNode)
    (collections : List CollectionNode) (pages : List PageNode)
    (articles : List ArticleNode) : Nat :=
  (if productsMissingAltTextCount products > 0 then 1 else 0) +
  (if productsShortDescriptionCount products > 0 then 1 else 0) +
  (if collectionsMissingMetaDescriptionCount collections > 0 then 1 else 0) +
  (if collectionsMissingDescriptionCount collections > 0 then 1 else 0) +
  (if pagesMissingContentCount pages > 0 then 1 else 0) +
  (if articlesMissingMetaTitleCount articles > 0 then 1 else 0) +
  (if articlesMissingMetaDescriptionCount articles > 0 then 1 else 0) +
  (if articlesShortContentCount articles > 0 then 1 else 0)

/-- Per-image reading of the alt-text rule for one product: one violation per
gallery image with falsy alt text, plus one when a featured image exists with
falsy alt text. -/
def productAltViolations (p : ProductNode) : Nat :=
  (p.images.filter fun img => jsFalsy img.altText).length +
    (match p.featuredImage with
     | some f => if jsFalsy f.altText then 1 else 0
     | none => 0)

/-- The thirteen issue ids in the fixed emission order of the source: the
four product rules, three collection rules, the page rule, three article
rules, then the two success checks. -/
def canonicalIssueIdOrder : List String :=
  ["products-meta-title", "products-meta-description", "products-alt-text",
   "products-short-description", "collections-meta-title",
   "collections-meta-description", "collections-description", "pages-content",
   "articles-meta-title", "articles-meta-description", "articles-short-content",
   "products-meta-title-good", "products-alt-text-good"]

/-- The single product of the spec test case: no SEO title, no fallback
title, no SEO description, a 10-character body, one gallery image without
alt text, no featured image. -/
def barrenProduct : ProductNode :=
  { id := "gid-product-1"
    title := ""
    handle := "barren-product"
    descriptionHtml := "0123456789"
    seo := { title := none, description := none }
    featuredImage := none
    images := [{ url := "img-1.jpg", altText := none }] }

/-- A product whose body text is present but the empty string, with every
other field compliant. -/
def emptyBodyProduct : ProductNode :=
  { id := "gid-product-2"
    title := "A product"
    handle := "empty-body-product"
    descriptionHtml := ""
    seo := { title := some "A product", description := some "A description" }
    featuredImage := none
    images := [] }

/-- An article whose content is present but the empty string, with every
other field compliant. -/
def emptyContentArticle : ArticleNode :=
  { id := "gid-article-1"
    title := "A post"
    handle := "empty-content-article"
    contentHtml := ""
    seo := { title := some "A post", description := some "A description" }
    image := none }

/-! Theorems. -/

theorem length_filter_ite_cons (b : Prop) [Decidable b] (x : α) (p : α → Bool) :
    ((if b then [x] else []).filter p).length
      = if b ∧ p x then 1 else 0 := by
  by_cases hb : b <;> by_cases hp : p x <;> simp [hb, hp, List.filter]

theorem nonSuccess_filter_critical_length (products : List ProductNode)
    (collections : List CollectionNode) (pages : List PageNode)
    (articles : List ArticleNode) :
    ((nonSuccessIssues products collections pages articles).filter
      fun i => i.type = IssueType.critical).length
      = criticalRecordCount products collections := by
  simp only [nonSuccessIssues, criticalRecordCount, List.filter_append,
    List.length_append, length_filter_ite_cons,
    issueProductsMetaTitle, issueProductsMetaDescription, issueProductsAltText,
    issueProductsShortDescription, issueCollectionsMetaTitle,
    issueCollectionsMetaDescription, issueCollectionsDescription,
    issuePagesContent, issueArticlesMetaTitle, issueArticlesMetaDescription,
    issueArticlesShortContent]
  simp

theorem nonSuccess_filter_warning_length (products : List ProductNode)
    (collections : List CollectionNode) (pages : List PageNode)
    (articles : List ArticleNode) :
    ((nonSuccessIssues products collections pages articles).filter
      fun i => i.type = IssueType.warning).length
      = warningRecordCount products collections pages articles := by
  simp only [nonSuccessIssues, warningRecordCount, List.filter_append,
    List.length_append, length_filter_ite_cons,
    issueProductsMetaTitle, issueProductsMetaDescription, issueProductsAltText,
    issueProductsShortDescription, issueCollectionsMetaTitle,
    issueCollectionsMetaDescription, issueCollectionsDescription,
    issuePagesContent, issueArticlesMetaTitle, issueArticlesMetaDescription,
    issueArticlesShortContent]
  simp

theorem analyze_contentScore_eq (products : List ProductNode)
    (collections : List CollectionNode) (pages : List PageNode)
    (articles : List ArticleNode) :
    (analyzeStoreSEO products collections pages articles).contentScore
      = contentScoreOf (criticalRecordCount products collections)
          (warningRecordCount products collections pages articles) := by
  show contentScoreOf _ _ = _
  rw [nonSuccess_filter_critical_length, nonSuccess_filter_warning_length]

/-- Accessibility component of the result, as a rewrite equation. -/
theorem analyze_accessibilityScore_eq (products : List ProductNode)
    (collections : List CollectionNode) (pages : List PageNode)
    (articles : List ArticleNode) :
    (analyzeStoreSEO products collections pages articles).accessibilityScore
      = accessibilityScoreOf (productsMissingAltTextCount products) := rfl

/-- Performance component of the result: the placeholder constant 80. -/
theorem analyze_performanceScore_eq (products : List ProductNode)
    (collections : List CollectionNode) (pages : List PageNode)
    (articles : List ArticleNode) :
    (analyzeStoreSEO products collections pages articles).performanceScore = 80 := rfl

/-- Overall component of the result, as a rewrite equation. -/
theorem analyze_overallScore_eq (products : List ProductNode)
    (collections : List CollectionNode) (pages : List PageNode)
    (articles : List ArticleNode) :
    (analyzeStoreSEO products collections pages articles).overallScore
      = mathRoundDiv3
          ((analyzeStoreSEO products collections pages articles).contentScore
            + (analyzeStoreSEO products collections pages articles).accessibilityScore
            + 80) := by
  show mathRoundDiv3 _ = _
  rw [analyze_contentScore_eq, analyze_accessibilityScore_eq,
    nonSuccess_filter_critical_length, nonSuccess_filter_warning_length]

theorem clamp0100_bounds (x : Int) : 0 ≤ clamp0100 x ∧ clamp0100 x ≤ 100 := by
  unfold clamp0100
  omega

theorem clamp0100_mono {x y : Int} (h : x ≤ y) : clamp0100 x ≤ clamp0100 y := by
  unfold clamp0100
  omega

theorem criticalRecordCount_le_three (products : List ProductNode)
    (collections : List CollectionNode) :
    criticalRecordCount products collections ≤ 3 := by
  unfold criticalRecordCount
  split <;> split <;> split <;> omega

theorem warningRecordCount_le_eight (products : List ProductNode)
    (collections : List CollectionNode) (pages : List PageNode)
    (articles : List ArticleNode) :
    warningRecordCount products collections pages articles ≤ 8 := by
  unfold warningRecordCount
  split <;> split <;> split <;> split <;> split <;> split <;> split <;> split <;> omega

theorem contentScoreOf_ge_15 {c w : Nat} (hc : c ≤ 3) (hw : w ≤ 8) :
    15 ≤ contentScoreOf c w := by
  unfold contentScoreOf clamp0100
  omega

theorem contentScoreOf_bounds (c w : Nat) :
    0 ≤ contentScoreOf c w ∧ contentScoreOf c w ≤ 100 :=
  clamp0100_bounds _

theorem accessibilityScoreOf_bounds (n : Nat) :
    0 ≤ accessibilityScoreOf n ∧ accessibilityScoreOf n ≤ 100 :=
  clamp0100_bounds _

theorem mathRoundDiv3_bounds {c a : Int} (hc0 : 0 ≤ c) (hc1 : c ≤ 100)
    (ha0 : 0 ≤ a) (ha1 : a ≤ 100) :
    0 ≤ mathRoundDiv3 (c + a + 80) ∧ mathRoundDiv3 (c + a + 80) ≤ 93 := by
  unfold mathRoundDiv3
  omega

theorem altFold_eq (products : List ProductNode) (acc : Nat) :
    products.foldl
      (fun acc product =>
        let imagesWithoutAlt :=
          (product.images.filter fun img => jsFalsy img.altText).length
        let acc1 := if imagesWithoutAlt > 0 then acc + imagesWithoutAlt else acc
        match product.featuredImage with
        | some f => if jsFalsy f.altText then acc1 + 1 else acc1
        | none => acc1)
      acc
      = acc + (products.map productAltViolations).sum := by
  induction products generalizing acc with
  | nil => simp
  | cons p ps ih =>
    rw [List.foldl_cons, ih, List.map_cons, List.sum_cons]
    have hstep :
        (let imagesWithoutAlt :=
          (p.images.filter fun img => jsFalsy img.altText).length
        let acc1 := if imagesWithoutAlt > 0 then acc + imagesWithoutAlt else acc
        match p.featuredImage with
        | some f => if jsFalsy f.altText then acc1 + 1 else acc1
        | none => acc1) = acc + productAltViolations p := by
      unfold productAltViolations
      rcases p.featuredImage with _ | f <;> simp only [] <;> split <;>
        (try split) <;> omega
    rw [hstep]
    omega

theorem analyze_issues_eq (products : List ProductNode)
    (collections : List CollectionNode) (pages : List PageNode)
    (articles : List ArticleNode) :
    (analyzeStoreSEO products collections pages articles).issues
      = nonSuccessIssues products collections pages articles
          ++ goodResultIssues products := rfl

theorem map_ite_singleton (b : Prop) [Decidable b] (x : α) (f : α → β) :
    (if b then [x] else []).map f = if b then [f x] else [] := by
  split <;> rfl

theorem sublist_ite_append (b : Prop) [Decidable b] (x : α) {l1 l2 : List α}
    (h : l1.Sublist l2) : ((if b then [x] else []) ++ l1).Sublist (x :: l2) := by
  split
  · exact List.Sublist.cons₂ x h
  · exact List.Sublist.cons x h

theorem sublist_ite_singleton (b : Prop) [Decidable b] (x : α) :
    (if b then [x] else []).Sublist [x] := by
  split
  · exact List.Sublist.refl [x]
  · exact List.nil_sublist [x]

theorem forall_mem_ite_singleton {α : Type} {P : α → Prop} (b : Prop)
    [Decidable b] (x : α) (hx : P x) :
    ∀ i ∈ (if b then [x] else []), P i := by
  intro i hi
  split at hi
  · rw [List.mem_singleton] at hi
    subst hi
    exact hx
  · cases hi

theorem forall_mem_ite_append {α : Type} {P : α → Prop} (b : Prop)
    [Decidable b] (x : α) {l : List α} (hl : ∀ i ∈ l, P i) (hx : P x) :
    ∀ i ∈ (if b then [x] else []) ++ l, P i := by
  intro i hi
  rcases List.mem_append.mp hi with h | h
  · exact forall_mem_ite_singleton b x hx i h
  · exact hl i h

theorem nonSuccess_never_success (products : List ProductNode)
    (collections : List CollectionNode) (pages : List PageNode)
    (articles : List ArticleNode) :
    ∀ i ∈ nonSuccessIssues products collections pages articles,
      i.type ≠ IssueType.success := by
  unfold nonSuccessIssues
  simp only [List.append_assoc]
  refine forall_mem_ite_append _ _ ?_ ?_
  refine forall_mem_ite_append _ _ ?_ ?_
  refine forall_mem_ite_append _ _ ?_ ?_
  refine forall_mem_ite_append _ _ ?_ ?_
  refine forall_mem_ite_append _ _ ?_ ?_
  refine forall_mem_ite_append _ _ ?_ ?_
  refine forall_mem_ite_append _ _ ?_ ?_
  refine forall_mem_ite_append _ _ ?_ ?_
  refine forall_mem_ite_append _ _ ?_ ?_
  refine forall_mem_ite_append _ _ ?_ ?_
  refine forall_mem_ite_singleton _ _ ?_
  all_goals simp [issueProductsMetaTitle, issueProductsMetaDescription,
    issueProductsAltText, issueProductsShortDescription,
    issueCollectionsMetaTitle, issueCollectionsMetaDescription,
    issueCollectionsDescription, issuePagesContent, issueArticlesMetaTitle,
    issueArticlesMetaDescription, issueArticlesShortContent]

theorem goodResults_all_success (products : List ProductNode) :
    ∀ i ∈ goodResultIssues products, i.type = IssueType.success := by
  unfold goodResultIssues
  refine forall_mem_ite_append _ _ ?_ ?_
  refine forall_mem_ite_singleton _ _ ?_
  all_goals simp [issueProductsMetaTitleGood, issueProductsAltTextGood]

/-- C1: contentScore is 100 minus 15 per critical issue record minus 5 per
warning issue record, clamped to [0, 100], where the record counts tally one
per nonzero rule counter across all resource types, not per resource. -/
theorem contentScore_formula (products : List ProductNode)
    (collections : List CollectionNode) (pages : List PageNode)
    (articles : List ArticleNode) :
    (analyzeStoreSEO products collections pages articles).contentScore
      = clamp0100 (100 - 15 * (criticalRecordCount products collections : Int)
          - 5 * (warningRecordCount products collections pages articles : Int)) := by
  rw [analyze_contentScore_eq]
  unfold contentScoreOf
  ring_nf

/-- C2: on four empty resource lists the analysis reports zero crawled pages,
an empty issues list, zero tallies, contentScore 100, accessibilityScore 100,
performanceScore 80 and overallScore 93. -/
theorem analyze_empty_input :
    (analyzeStoreSEO [] [] [] []).crawledPages = 0 ∧
    (analyzeStoreSEO [] [] [] []).issues = [] ∧
    (analyzeStoreSEO [] [] [] []).criticalIssues = 0 ∧
    (analyzeStoreSEO [] [] [] []).improvements = 0 ∧
    (analyzeStoreSEO [] [] [] []).goodResults = 0 ∧
    (analyzeStoreSEO [] [] [] []).contentScore = 100 ∧
    (analyzeStoreSEO [] [] [] []).accessibilityScore = 100 ∧
    (analyzeStoreSEO [] [] [] []).performanceScore = 80 ∧
    (analyzeStoreSEO [] [] [] []).overallScore = 93 := by
  decide

/-- C3: one product missing everything yields exactly the four product
issues with affectedPages 1 each, two criticals, two warnings, contentScore
60, accessibilityScore 98 and overallScore 79. -/
theorem analyze_barren_product :
    ((analyzeStoreSEO [barrenProduct] [] [] []).issues.map fun i =>
      (i.id, i.type, i.affectedPages)) =
      [("products-meta-title", IssueType.critical, some 1),
       ("products-meta-description", IssueType.critical, some 1),
       ("products-alt-text", IssueType.warning, some 1),
       ("products-short-description", IssueType.warning, some 1)] ∧
    (analyzeStoreSEO [barrenProduct] [] [] []).criticalIssues = 2 ∧
    (analyzeStoreSEO [barrenProduct] [] [] []).improvements = 2 ∧
    (analyzeStoreSEO [barrenProduct] [] [] []).contentScore = 60 ∧
    (analyzeStoreSEO [barrenProduct] [] [] []).accessibilityScore = 98 ∧
    (analyzeStoreSEO [barrenProduct] [] [] []).overallScore = 79 := by
  decide

/-- C4: all four returned scores lie in [0, 100], including overallScore. -/
theorem scores_within_bounds (products : List ProductNode)
    (collections : List CollectionNode) (pages : List PageNode)
    (articles : List ArticleNode) :
    (0 ≤ (analyzeStoreSEO products collections pages articles).contentScore ∧
      (analyzeStoreSEO products collections pages articles).contentScore ≤ 100) ∧
    (0 ≤ (analyzeStoreSEO products collections pages articles).accessibilityScore ∧
      (analyzeStoreSEO products collections pages articles).accessibilityScore ≤ 100) ∧
    (0 ≤ (analyzeStoreSEO products collections pages articles).performanceScore ∧
      (analyzeStoreSEO products collections pages articles).performanceScore ≤ 100) ∧
    (0 ≤ (analyzeStoreSEO products collections pages articles).overallScore ∧
      (analyzeStoreSEO products collections pages articles).overallScore ≤ 100) := by
  rw [analyze_overallScore_eq, analyze_contentScore_eq,
    analyze_accessibilityScore_eq, analyze_performanceScore_eq]
  obtain ⟨hc0, hc1⟩ := contentScoreOf_bounds
    (criticalRecordCount products collections)
    (warningRecordCount products collections pages articles)
  obtain ⟨ha0, ha1⟩ := accessibilityScoreOf_bounds (productsMissingAltTextCount products)
  obtain ⟨ho0, ho1⟩ := mathRoundDiv3_bounds hc0 hc1 ha0 ha1
  refine ⟨⟨hc0, hc1⟩, ⟨ha0, ha1⟩, ⟨by norm_num, by norm_num⟩, ho0, by omega⟩

/-- C5: one more critical issue record never increases contentScore, and one
more product image missing alt text never increases accessibilityScore. -/
theorem penalty_monotone (c w n : Nat) :
    contentScoreOf (c + 1) w ≤ contentScoreOf c w ∧
    accessibilityScoreOf (n + 1) ≤ accessibilityScoreOf n := by
  constructor
  · apply clamp0100_mono
    push_cast
    omega
  · apply clamp0100_mono
    rcases Nat.eq_zero_or_pos n with h | h
    · subst h
      norm_num
    · rw [if_pos h, if_pos (by omega : n + 1 > 0)]
      push_cast
      omega

/-- C6: the products-alt-text counter sums missing-alt images over all
products (gallery images plus the featured image), not one per product. -/
theorem altText_counts_per_image (products : List ProductNode) :
    productsMissingAltTextCount products
      = (products.map productAltViolations).sum := by
  rw [productsMissingAltTextCount, altFold_eq, Nat.zero_add]

/-- C7: the issues sequence is the non-success issues in the fixed rule
order followed by the success issues in their fixed order; the id sequence
is always a subsequence of the canonical emission order, so no sorting by
severity or affected count happens. -/
theorem issues_fixed_order (products : List ProductNode)
    (collections : List CollectionNode) (pages : List PageNode)
    (articles : List ArticleNode) :
    (analyzeStoreSEO products collections pages articles).issues
      = nonSuccessIssues products collections pages articles
          ++ goodResultIssues products ∧
    ((analyzeStoreSEO products collections pages articles).issues.map
      (fun i => i.id)).Sublist canonicalIssueIdOrder ∧
    (∀ i ∈ nonSuccessIssues products collections pages articles,
      i.type ≠ IssueType.success) ∧
    (∀ i ∈ goodResultIssues products, i.type = IssueType.success) := by
  refine ⟨analyze_issues_eq products collections pages articles, ?_,
    nonSuccess_never_success products collections pages articles,
    goodResults_all_success products⟩
  rw [analyze_issues_eq]
  simp only [nonSuccessIssues, goodResultIssues, List.append_assoc,
    List.map_append, map_ite_singleton, canonicalIssueIdOrder,
    issueProductsMetaTitle, issueProductsMetaDescription,
    issueProductsAltText, issueProductsShortDescription,
    issueCollectionsMetaTitle, issueCollectionsMetaDescription,
    issueCollectionsDescription, issuePagesContent, issueArticlesMetaTitle,
    issueArticlesMetaDescription, issueArticlesShortContent,
    issueProductsMetaTitleGood, issueProductsAltTextGood]
  refine sublist_ite_append _ _ (sublist_ite_append _ _ (sublist_ite_append _ _
    (sublist_ite_append _ _ (sublist_ite_append _ _ (sublist_ite_append _ _
    (sublist_ite_append _ _ (sublist_ite_append _ _ (sublist_ite_append _ _
    (sublist_ite_append _ _ (sublist_ite_append _ _ (sublist_ite_append _ _
    (sublist_ite_singleton _ _))))))))))))

/-- C8 counterexample: a product with empty-string body does not trigger
products-short-description, and an article with empty-string content does
not trigger articles-short-content — the truthiness guard rejects the empty
string before the length comparison runs. -/
theorem empty_body_never_short :
    productsShortDescriptionCount [emptyBodyProduct] = 0 ∧
    articlesShortContentCount [emptyContentArticle] = 0 ∧
    ((analyzeStoreSEO [emptyBodyProduct] [] [] [emptyContentArticle]).issues.map
      fun i => i.id).contains "products-short-description" = false ∧
    ((analyzeStoreSEO [emptyBodyProduct] [] [] [emptyContentArticle]).issues.map
      fun i => i.id).contains "articles-short-content" = false := by
  decide

/-- C8 amended: the short-content rules skip resources whose body text is
the empty string; only truthy (nonempty) text shorter than the threshold
counts. -/
theorem empty_body_skips_length_rules (p : ProductNode) (a : ArticleNode)
    (hp : p.descriptionHtml = "") (ha : a.contentHtml = "") :
    productsShortDescriptionCount [p] = 0 ∧
    articlesShortContentCount [a] = 0 := by
  constructor
  · simp [productsShortDescriptionCount, List.countP, List.countP.go,
      jsStrFalsy, hp]
  · simp [articlesShortContentCount, List.countP, List.countP.go,
      jsStrFalsy, ha]

theorem empty_body_skips_length_rules_witness :
    emptyBodyProduct.descriptionHtml = "" ∧
    emptyContentArticle.contentHtml = "" ∧
    productsShortDescriptionCount [emptyBodyProduct] = 0 ∧
    articlesShortContentCount [emptyContentArticle] = 0 :=
  ⟨rfl, rfl,
    (empty_body_skips_length_rules emptyBodyProduct emptyContentArticle rfl rfl).1,
    (empty_body_skips_length_rules emptyBodyProduct emptyContentArticle rfl rfl).2⟩

/-- C9: overallScore always lies in [32, 93]: the constant performanceScore 80
and the contentScore floor of 15 bound the rounded mean. -/
theorem overallScore_range (products : List ProductNode)
    (collections : List CollectionNode) (pages : List PageNode)
    (articles : List ArticleNode) :
    32 ≤ (analyzeStoreSEO products collections pages articles).overallScore ∧
    (analyzeStoreSEO products collections pages articles).overallScore ≤ 93 := by
  rw [analyze_overallScore_eq, analyze_contentScore_eq, analyze_accessibilityScore_eq]
  have h15 := contentScoreOf_ge_15 (criticalRecordCount_le_three products collections)
    (warningRecordCount_le_eight products collections pages articles)
  obtain ⟨hc0, hc1⟩ := contentScoreOf_bounds
    (criticalRecordCount products collections)
    (warningRecordCount products collections pages articles)
  obtain ⟨ha0, ha1⟩ := accessibilityScoreOf_bounds (productsMissingAltTextCount products)
  unfold mathRoundDiv3
  omega

/-- C10: contentScore never drops below 15, since at most 3 critical and 8
warning issue records can exist in one run. -/
theorem contentScore_floor (products : List ProductNode)
    (collections : List CollectionNode) (pages : List PageNode)
    (articles : List ArticleNode) :
    criticalRecordCount products collections ≤ 3 ∧
    warningRecordCount products collections pages articles ≤ 8 ∧
    15 ≤ (analyzeStoreSEO products collections pages articles).contentScore := by
  refine ⟨criticalRecordCount_le_three products collections,
    warningRecordCount_le_eight products collections pages articles, ?_⟩
  rw [analyze_contentScore_eq]
  exact contentScoreOf_ge_15 (criticalRecordCount_le_three products collections)
    (warningRecordCount_le_eight products collections pages articles)
